import Mathlib

/-!
Shallow embedding of the signless-demo-backend session store and ledger
matcher (src/src/services/sessionManager.js, the Solana service bundled in the
same file after it, and src/src/routes/auth.js).

Modelling conventions:
- The two JS Maps (sessions and pendingAuth) become association lists from
  sessionId strings to AuthRequest records, collected in a Store record that
  every operation threads explicitly.
- Date.now() becomes an explicit now : Nat parameter (epoch milliseconds).
- SOL amounts are rationals; one lamport is 1/1000000000 SOL, so every
  on-chain balance delta is an exact rational.
- Number.prototype.toFixed(9) followed by parseFloat becomes round9, rounding
  to the nearest multiple of 10 ^ (-9).
- uuidv4() becomes a sessionId parameter; freshness of generated ids is a
  side condition on the reachability relation, mirroring uuid uniqueness.
- Network calls (getSignaturesForAddress / getTransaction) become Except or
  Option parameters so that I/O failure and missing transactions are explicit.
-/

namespace SignLess

/-- Lamports per SOL, as in the web3 constant LAMPORTS_PER_SOL. -/
def lamportsPerSol : ℚ := 1000000000

/-- Rounding to 9 decimal places, the effect of parseFloat(x.toFixed(9)). -/
def round9 (q : ℚ) : ℚ := (round (q * 1000000000) : ℤ) / 1000000000

/-- The per-request amount perturbation: (Date.now() % 1000) / 1000000000. -/
def uniqueModifier (now : Nat) : ℚ := ((now % 1000 : ℕ) : ℚ) / 1000000000

/-- The stored authentication request (sessionManager.js lines 30-39); the
signature and verifiedAt fields are set only on the verify transition. -/
structure AuthRequest where
  sessionId : String
  walletAddress : String
  receiverAddress : String
  expectedAmount : ℚ
  status : String
  createdAt : Nat
  expiresAt : Nat
  verified : Bool
  signature : Option String := none
  verifiedAt : Option Nat := none
deriving DecidableEq

/-- The two partitions of the in-memory store: sessions holds verified
requests, pendingAuth holds pending ones. -/
structure Store where
  sessions : List (String × AuthRequest)
  pendingAuth : List (String × AuthRequest)
deriving DecidableEq

/-- Map.get: the value stored at the first occurrence of the key. -/
def mapGet : List (String × AuthRequest) → String → Option AuthRequest
  | [], _ => none
  | (k, v) :: rest, key => if k = key then some v else mapGet rest key

/-- Map.delete: remove every binding of the key. -/
def mapDelete : List (String × AuthRequest) → String → List (String × AuthRequest)
  | [], _ => []
  | (k, v) :: rest, key =>
    if k = key then mapDelete rest key else (k, v) :: mapDelete rest key

/-- Map.set: bind the key, replacing any previous binding. -/
def mapSet (m : List (String × AuthRequest)) (k : String) (v : AuthRequest) :
    List (String × AuthRequest) :=
  (k, v) :: mapDelete m k

/-- The empty store (fresh process: both Maps empty). -/
def emptyStore : Store := { sessions := [], pendingAuth := [] }

/-- The value returned by createAuthRequest (sessionManager.js lines 51-57). -/
structure CreateResp where
  sessionId : String
  receiverAddress : String
  expectedAmount : ℚ
  expiresAt : Nat
  message : String
deriving DecidableEq

/-- createAuthRequest (sessionManager.js lines 14-58). The generated uuid is
the sessionId parameter, process.env.VERIFICATION_AMOUNT is baseAmount,
process.env.RECEIVER_WALLET_ADDRESS is receiverAddress? (throwing when
unset), SESSION_EXPIRY is sessionExpiry. The setTimeout auto-cleanup is a
timer; expiry is otherwise enforced lazily and by cleanupExpiredSessions,
which the step relation below includes. -/
def createAuthRequest (now : Nat) (sessionId : String) (walletAddress : String)
    (baseAmount : ℚ) (receiverAddress? : Option String) (sessionExpiry : Nat)
    (st : Store) : Except String (CreateResp × Store) :=
  let expectedAmount := round9 (baseAmount + uniqueModifier now)
  match receiverAddress? with
  | none => .error "RECEIVER_WALLET_ADDRESS not configured"
  | some receiverAddress =>
    let authRequest : AuthRequest :=
      { sessionId := sessionId
        walletAddress := walletAddress
        receiverAddress := receiverAddress
        expectedAmount := expectedAmount
        status := "pending"
        createdAt := now
        expiresAt := now + sessionExpiry
        verified := false }
    .ok ({ sessionId := sessionId
           receiverAddress := receiverAddress
           expectedAmount := expectedAmount
           expiresAt := authRequest.expiresAt
           message := "Send exactly " ++ toString expectedAmount ++ " SOL to "
             ++ receiverAddress ++ " to verify your wallet ownership" },
         { st with pendingAuth := mapSet st.pendingAuth sessionId authRequest })

/-- The slice of a Solana verification result that verifyAuthRequest reads:
only the verified flag and the error message. -/
structure VerificationResult where
  verified : Bool
  error : Option String := none
deriving DecidableEq

/-- JS truthy-or: e or a default, where undefined and the empty string are
falsy (verificationResult.error or a fallback message). -/
def orDefault (s? : Option String) (d : String) : String :=
  match s? with
  | none => d
  | some s => if s = "" then d else s

/-- Outcome of verifyAuthRequest: the two throw sites, the failure object and
the success object (sessionManager.js lines 67-105). -/
inductive VerifyOutcome where
  | sessionNotFound
  | sessionExpired
  | failure (error : String)
  | success (sessionId : String) (walletAddress : String) (signature : String)
      (verifiedAt : Nat)
deriving DecidableEq

/-- verifyAuthRequest (sessionManager.js lines 67-105): looks the session up
in pendingAuth only, throws notFound when absent, deletes and throws expired
when past expiresAt, returns a failure object when the verification result is
not verified, and otherwise mutates the request and moves it from pendingAuth
to sessions. -/
def verifyAuthRequest (now : Nat) (sessionId : String) (signature : String)
    (verificationResult : VerificationResult) (st : Store) :
    VerifyOutcome × Store :=
  match mapGet st.pendingAuth sessionId with
  | none => (.sessionNotFound, st)
  | some authRequest =>
    if authRequest.expiresAt < now then
      (.sessionExpired, { st with pendingAuth := mapDelete st.pendingAuth sessionId })
    else if verificationResult.verified = false then
      (.failure (orDefault verificationResult.error "Transaction verification failed"), st)
    else
      let updated : AuthRequest :=
        { authRequest with
            status := "verified"
            verified := true
            signature := some signature
            verifiedAt := some now }
      (.success sessionId authRequest.walletAddress signature now,
       { st with
           sessions := mapSet st.sessions sessionId updated
           pendingAuth := mapDelete st.pendingAuth sessionId })

/-- The view returned by getAuthStatus (sessionManager.js lines 112-153). -/
inductive StatusView where
  | verifiedView (walletAddress : String) (signature : Option String)
      (verifiedAt : Option Nat)
  | pendingView (walletAddress : String) (expiresAt : Nat) (expectedAmount : ℚ)
      (receiverAddress : String)
  | expiredView
  | notFoundView
deriving DecidableEq

/-- getAuthStatus (sessionManager.js lines 112-153): checks sessions first,
then pendingAuth with lazy expiry (deleting an expired entry), else
not found. -/
def getAuthStatus (now : Nat) (sessionId : String) (st : Store) :
    StatusView × Store :=
  match mapGet st.sessions sessionId with
  | some session =>
    (.verifiedView session.walletAddress session.signature session.verifiedAt, st)
  | none =>
    match mapGet st.pendingAuth sessionId with
    | some authRequest =>
      if authRequest.expiresAt < now then
        (.expiredView, { st with pendingAuth := mapDelete st.pendingAuth sessionId })
      else
        (.pendingView authRequest.walletAddress authRequest.expiresAt
          authRequest.expectedAmount authRequest.receiverAddress, st)
    | none => (.notFoundView, st)

/-- The value returned by invalidateSession. -/
structure InvalidateResp where
  success : Bool
  message : String
deriving DecidableEq

/-- invalidateSession (sessionManager.js lines 159-163): deletes the id from
both partitions and always reports success. -/
def invalidateSession (sessionId : String) (st : Store) : InvalidateResp × Store :=
  ({ success := true, message := "Session invalidated" },
   { sessions := mapDelete st.sessions sessionId
     pendingAuth := mapDelete st.pendingAuth sessionId })

/-- cleanupExpiredSessions (sessionManager.js lines 175-188): deletes every
pending entry past its expiresAt and returns how many were removed. -/
def cleanupExpiredSessions (now : Nat) (st : Store) : Nat × Store :=
  ((st.pendingAuth.filter (fun p => decide (p.2.expiresAt < now))).length,
   { st with pendingAuth := st.pendingAuth.filter (fun p => !decide (p.2.expiresAt < now)) })

/-- A confirmed ledger transaction as the matcher reads it: the meta.err flag,
the account keys (index 0 is the fee payer / first signer; the pre and post
balance arrays are index-aligned with the keys), and block metadata. -/
structure LedgerTx where
  signature : String
  err : Bool
  accountKeys : List String
  preBalances : List Int
  postBalances : List Int
  blockTime : Int
  slot : Nat
deriving DecidableEq

/-- A found match as returned by checkForIncomingTransaction. -/
structure MatchFound where
  signature : String
  receivedAmount : ℚ
  blockTime : Int
  slot : Nat
deriving DecidableEq

/-- Result of checkForIncomingTransaction: found with metadata, or not found,
carrying the error message when a caught exception produced the result. -/
inductive MatchResult where
  | found (m : MatchFound)
  | notFound (error : Option String)
deriving DecidableEq

/-- The receiver balance delta used by both matcher entry points:
(postBalances[i] - preBalances[i]) / LAMPORTS_PER_SOL. -/
def balanceDelta (tx : LedgerTx) (i : Nat) : ℚ :=
  ((tx.postBalances.getD i 0 - tx.preBalances.getD i 0 : ℤ) : ℚ) / lamportsPerSol

/-- The tight matching tolerance of checkForIncomingTransaction: 0.000001 SOL. -/
def findMatchTolerance : ℚ := 1 / 1000000

/-- The wider tolerance of verifyTransaction: 0.0001 SOL. -/
def verifyTolerance : ℚ := 1 / 10000

/-- The per-transaction body of the scan loop in checkForIncomingTransaction
(solana service, lines 245-293): skip failed transactions, skip when the
first signer is not the expected sender, skip when the receiver is not among
the account keys, and accept when the receiver balance delta is within the
tight tolerance (strictly). A Solana message always carries at least the fee
payer, so head of accountKeys stands for accountKeys[0]. -/
def checkTx (expectedSender receiverAddress : String) (expectedAmount : ℚ)
    (tx : LedgerTx) : Option MatchFound :=
  if tx.err then none
  else if tx.accountKeys.headD "" ≠ expectedSender then none
  else
    match tx.accountKeys.findIdx? (fun k => k == receiverAddress) with
    | none => none
    | some receiverIndex =>
      if |balanceDelta tx receiverIndex - expectedAmount| < findMatchTolerance then
        some { signature := tx.signature
               receivedAmount := balanceDelta tx receiverIndex
               blockTime := tx.blockTime
               slot := tx.slot }
      else none

/-- checkForIncomingTransaction (solana service, lines 232-301). The ledger
query (getSignaturesForAddress plus the per-signature getTransaction calls)
is the ledger parameter: an error stands for any thrown I/O failure, which
the catch-all turns into a found:false result carrying the message; a list
stands for the fetched window, newest first. The scan returns the first
match, else found:false. -/
def checkForIncomingTransaction (ledger : Except String (List LedgerTx))
    (expectedSender receiverAddress : String) (expectedAmount : ℚ) : MatchResult :=
  match ledger with
  | .error msg => .notFound (some msg)
  | .ok txs =>
    match txs.findSome? (checkTx expectedSender receiverAddress expectedAmount) with
    | some m => .found m
    | none => .notFound none

/-- The full result object of verifyTransaction; only verified and error are
consumed by the session store. -/
structure VerifyTxResult where
  verified : Bool
  error : Option String := none
  signature : Option String := none
  amount : Option ℚ := none
deriving DecidableEq

/-- verifyTransaction (solana service, lines 311-388): fetch one transaction
by signature (fetch = error for a thrown I/O failure, ok none when the node
returns null, ok some tx otherwise), reject failed transactions, require both
addresses among the account keys, and accept when the receiver balance delta
is within the wider tolerance (non-strictly). -/
def verifyTransaction (fetch : Except String (Option LedgerTx))
    (signature fromAddress toAddress : String) (expectedAmount : ℚ) :
    VerifyTxResult :=
  match fetch with
  | .error msg => { verified := false, error := some msg }
  | .ok none => { verified := false, error := some "Transaction not found or not yet confirmed" }
  | .ok (some tx) =>
    if tx.err then { verified := false, error := some "Transaction failed on chain" }
    else
      match tx.accountKeys.findIdx? (fun k => k == fromAddress),
            tx.accountKeys.findIdx? (fun k => k == toAddress) with
      | none, _ => { verified := false, error := some "Sender or receiver not found in transaction" }
      | some _, none => { verified := false, error := some "Sender or receiver not found in transaction" }
      | some _, some toIndex =>
        if |balanceDelta tx toIndex - expectedAmount| ≤ verifyTolerance then
          { verified := true
            signature := some signature
            amount := some (balanceDelta tx toIndex) }
        else
          { verified := false
            error := some "Amount mismatch"
            amount := some (balanceDelta tx toIndex) }

/-- Response of POST /api/auth/verify (auth.js lines 50-107), tagged by the
branch that produced it. -/
inductive PostVerifyResp where
  | badRequest (error : String)
  | httpNotFound (error : String)
  | alreadyVerified (walletAddress : String) (signature : Option String)
      (verifiedAt : Option Nat)
  | verifyFailed (error : String)
  | verifiedOk (sessionId : String) (walletAddress : String) (signature : String)
      (verifiedAt : Nat)
  | currentStatus (view : StatusView)
  | serverError
deriving DecidableEq

/-- POST /api/auth/verify (auth.js lines 50-107): guards the missing session
id (JS falsiness: undefined or empty string), reads getAuthStatus, returns
404 / 400 / already-verified for the terminal views, and for a pending
session with a signature runs verifyTransaction against the fetched
transaction and feeds the result to verifyAuthRequest; with no signature it
returns the current status. A throw inside verifyAuthRequest would reach the
error middleware (serverError). -/
def postVerify (now : Nat) (sessionId? : Option String) (signature? : Option String)
    (fetch : Except String (Option LedgerTx)) (st : Store) :
    PostVerifyResp × Store :=
  match sessionId? with
  | none => (.badRequest "Session ID is required", st)
  | some sessionId =>
    if sessionId = "" then (.badRequest "Session ID is required", st)
    else
      match getAuthStatus now sessionId st with
      | (.notFoundView, st1) => (.httpNotFound "Session not found or expired", st1)
      | (.expiredView, st1) =>
        (.badRequest "Session expired. Please start a new authentication request.", st1)
      | (.verifiedView w sg vAt, st1) => (.alreadyVerified w sg vAt, st1)
      | (.pendingView w _e amt recv, st1) =>
        match signature? with
        | none => (.currentStatus (.pendingView w _e amt recv), st1)
        | some signature =>
          let txResult := verifyTransaction fetch signature w recv amt
          let verificationResult : VerificationResult :=
            { verified := txResult.verified, error := txResult.error }
          match verifyAuthRequest now sessionId signature verificationResult st1 with
          | (.failure err, st2) => (.verifyFailed err, st2)
          | (.success sid w2 sg2 vAt2, st2) => (.verifiedOk sid w2 sg2 vAt2, st2)
          | (.sessionNotFound, st2) => (.serverError, st2)
          | (.sessionExpired, st2) => (.serverError, st2)

/-- Response of GET /api/auth/status/:sessionId (auth.js lines 114-162). -/
inductive StatusRouteResp where
  | view (v : StatusView)
  | verifiedOk (sessionId : String) (walletAddress : String) (signature : String)
      (verifiedAt : Nat)
  | verifyFailed (error : String)
deriving DecidableEq

/-- GET /api/auth/status/:sessionId (auth.js lines 114-162): terminal views
return as-is; for a pending session the route runs the matcher once and on a
match commits through verifyAuthRequest, returning its result object. The
inner try/catch swallows any throw from the matcher call or the commit and
falls through to the pending view, so a throwing commit degrades to the
pending view rather than an error. -/
def statusRoute (now : Nat) (ledger : Except String (List LedgerTx))
    (sessionId : String) (st : Store) : StatusRouteResp × Store :=
  match getAuthStatus now sessionId st with
  | (.pendingView w e amt recv, st1) =>
    match checkForIncomingTransaction ledger w recv amt with
    | .found m =>
      let verificationResult : VerificationResult := { verified := true }
      match verifyAuthRequest now sessionId m.signature verificationResult st1 with
      | (.success sid w2 sg2 vAt2, st2) => (.verifiedOk sid w2 sg2 vAt2, st2)
      | (.failure err, st2) => (.verifyFailed err, st2)
      | (.sessionNotFound, st2) => (.view (.pendingView w e amt recv), st2)
      | (.sessionExpired, st2) => (.view (.pendingView w e amt recv), st2)
    | .notFound _ => (.view (.pendingView w e amt recv), st1)
  | (v, st1) => (.view v, st1)

/-- Reachability by the public operations. The create step carries the
freshness of the generated uuid (never seen in either partition) as a side
condition; every other operation may run with any arguments at any time. -/
inductive Reachable : Store → Prop where
  | init : Reachable emptyStore
  | create {st : Store} {now : Nat} {sid w recv : String} {b : ℚ} {exp : Nat}
      {resp : CreateResp} {st' : Store} :
      Reachable st →
      mapGet st.pendingAuth sid = none →
      mapGet st.sessions sid = none →
      createAuthRequest now sid w b (some recv) exp st = .ok (resp, st') →
      Reachable st'
  | verify {st : Store} (now : Nat) (sid sig : String) (vr : VerificationResult) :
      Reachable st → Reachable (verifyAuthRequest now sid sig vr st).2
  | getStatus {st : Store} (now : Nat) (sid : String) :
      Reachable st → Reachable (getAuthStatus now sid st).2
  | invalidate {st : Store} (sid : String) :
      Reachable st → Reachable (invalidateSession sid st).2
  | sweep {st : Store} (now : Nat) :
      Reachable st → Reachable (cleanupExpiredSessions now st).2

/-- Disjointness of the two partitions at every key. -/
def PartitionsDisjoint (st : Store) : Prop :=
  ∀ sid : String, mapGet st.pendingAuth sid = none ∨ mapGet st.sessions sid = none

/-- A concrete pending request used by the closed witnesses: expected amount
0.000010042 SOL, expiring at millisecond 100. -/
def demoPending : AuthRequest :=
  { sessionId := "p"
    walletAddress := "W"
    receiverAddress := "R"
    expectedAmount := 10042 / 1000000000
    status := "pending"
    createdAt := 0
    expiresAt := 100
    verified := false }

/-- A concrete verified request used by the closed witnesses. -/
def demoVerified : AuthRequest :=
  { sessionId := "v"
    walletAddress := "V"
    receiverAddress := "R"
    expectedAmount := 10042 / 1000000000
    status := "verified"
    createdAt := 0
    expiresAt := 100
    verified := true
    signature := some "SIG"
    verifiedAt := some 50 }

/-- A concrete store with one verified and one pending session. -/
def demoStore : Store :=
  { sessions := [("v", demoVerified)], pendingAuth := [("p", demoPending)] }

/-- A successful transfer of exactly 10042 lamports from W to R. -/
def demoTxGood : LedgerTx :=
  { signature := "sigGood"
    err := false
    accountKeys := ["W", "R"]
    preBalances := [5000000000, 1000]
    postBalances := [4999984958, 11042]
    blockTime := 1700000000
    slot := 42 }

/-- A successful transfer of 20000 lamports (0.00002 SOL) from W to R. -/
def demoTxBad : LedgerTx :=
  { signature := "sigBad"
    err := false
    accountKeys := ["W", "R"]
    preBalances := [5000000000, 1000]
    postBalances := [4999975000, 21000]
    blockTime := 1700000000
    slot := 43 }

/-- A successful transfer of 110000 lamports (0.00011 SOL) from W to R: its
delta sits exactly at the wider tolerance above 0.00001. -/
def demoTxBoundary : LedgerTx :=
  { signature := "sigBoundary"
    err := false
    accountKeys := ["W", "R"]
    preBalances := [5000000000, 1000]
    postBalances := [4999885000, 111000]
    blockTime := 1700000000
    slot := 44 }

/-- The request record produced by a concrete createAuthRequest call: base
amount 0.00001 SOL, created at epoch millisecond 7042 (so the low three
digits are 042), timeout 1000 ms. -/
def demoCreated : AuthRequest :=
  { sessionId := "s1"
    walletAddress := "W"
    receiverAddress := "R"
    expectedAmount := round9 (1 / 100000 + uniqueModifier 7042)
    status := "pending"
    createdAt := 7042
    expiresAt := 7042 + 1000
    verified := false }

/-- The response of that concrete createAuthRequest call. -/
def demoCreateResp : CreateResp :=
  { sessionId := "s1"
    receiverAddress := "R"
    expectedAmount := round9 (1 / 100000 + uniqueModifier 7042)
    expiresAt := 7042 + 1000
    message := "Send exactly " ++ toString (round9 (1 / 100000 + uniqueModifier 7042))
      ++ " SOL to " ++ "R" ++ " to verify your wallet ownership" }

/-- The store after that concrete createAuthRequest call on the empty store. -/
def demoCreatedStore : Store :=
  { sessions := [], pendingAuth := [("s1", demoCreated)] }

theorem mapGet_mapDelete (m : List (String × AuthRequest)) (k s : String) :
    mapGet (mapDelete m k) s = if s = k then none else mapGet m s := by
  induction m with
  | nil => simp [mapGet, mapDelete]
  | cons p rest ih =>
    obtain ⟨a, v⟩ := p
    by_cases hak : a = k
    · subst hak
      by_cases hsk : s = a
      · subst hsk
        simp [mapDelete, ih]
      · have hne : ¬ a = s := fun h => hsk h.symm
        simp [mapDelete, mapGet, ih, hsk, hne]
    · by_cases has : a = s
      · subst has
        simp [mapDelete, mapGet, hak]
      · simp [mapDelete, mapGet, hak, has, ih]

theorem mapGet_mapSet (m : List (String × AuthRequest)) (k : String)
    (v : AuthRequest) (s : String) :
    mapGet (mapSet m k v) s = if k = s then some v else mapGet m s := by
  by_cases hks : k = s
  · simp [mapSet, mapGet, hks]
  · rw [mapSet]
    simp only [mapGet, if_neg hks, mapGet_mapDelete]
    rw [if_neg (fun h => hks h.symm)]

theorem mapGet_filter_none (m : List (String × AuthRequest))
    (f : String × AuthRequest → Bool) (k : String) (h : mapGet m k = none) :
    mapGet (m.filter f) k = none := by
  induction m with
  | nil => simp [mapGet]
  | cons p rest ih =>
    obtain ⟨a, v⟩ := p
    by_cases hak : a = k
    · simp [mapGet, hak] at h
    · simp only [mapGet, if_neg hak] at h
      cases hf : f (a, v) <;> simp [List.filter, hf, mapGet, hak, ih h]

theorem mapDelete_mapDelete (m : List (String × AuthRequest)) (k : String) :
    mapDelete (mapDelete m k) k = mapDelete m k := by
  induction m with
  | nil => rfl
  | cons p rest ih =>
    obtain ⟨a, v⟩ := p
    by_cases hak : a = k <;> simp [mapDelete, hak, ih]

/-- C4: for every sessionId, getStatus returns the verified view when the id
is in the verified partition; the pending view (walletAddress, expiresAt,
expectedAmount, receiverAddress) when it is in pending and now is at most
expiresAt; expired exactly once, deleting the entry, when it is in pending
and now is past expiresAt, after which every call returns not found; and not
found for every sessionId never created (absent from both partitions). -/
theorem getAuthStatus_cases (now : Nat) (sid : String) (st : Store) :
    (∀ r, mapGet st.sessions sid = some r →
      getAuthStatus now sid st =
        (.verifiedView r.walletAddress r.signature r.verifiedAt, st)) ∧
    (∀ r, mapGet st.sessions sid = none → mapGet st.pendingAuth sid = some r →
      now ≤ r.expiresAt →
      getAuthStatus now sid st =
        (.pendingView r.walletAddress r.expiresAt r.expectedAmount r.receiverAddress, st)) ∧
    (∀ r, mapGet st.sessions sid = none → mapGet st.pendingAuth sid = some r →
      r.expiresAt < now →
      (getAuthStatus now sid st).1 = .expiredView ∧
      mapGet (getAuthStatus now sid st).2.pendingAuth sid = none ∧
      (∀ now2, getAuthStatus now2 sid (getAuthStatus now sid st).2 =
        (.notFoundView, (getAuthStatus now sid st).2))) ∧
    (mapGet st.sessions sid = none → mapGet st.pendingAuth sid = none →
      getAuthStatus now sid st = (.notFoundView, st)) := by
  refine ⟨fun r hv => ?_, fun r hs hp hle => ?_, fun r hs hp hlt => ?_, fun hs hp => ?_⟩
  · simp [getAuthStatus, hv]
  · simp [getAuthStatus, hs, hp, Nat.not_lt.mpr hle]
  · refine ⟨?_, ?_, ?_⟩
    · simp [getAuthStatus, hs, hp, hlt]
    · simp [getAuthStatus, hs, hp, hlt, mapGet_mapDelete]
    · intro now2
      simp [getAuthStatus, hs, hp, hlt, mapGet_mapDelete]
  · simp [getAuthStatus, hs, hp]

/-- Witness for C4: on a concrete store the verified, pending, expired and
not-found cases of getStatus behave as stated, the expired call deleting the
pending entry so that a later call reports not found. -/
theorem getAuthStatus_cases_witness :
    getAuthStatus 50 "v" demoStore =
      (.verifiedView "V" (some "SIG") (some 50), demoStore) ∧
    getAuthStatus 50 "p" demoStore =
      (.pendingView "W" 100 (10042 / 1000000000) "R", demoStore) ∧
    (getAuthStatus 101 "p" demoStore).1 = .expiredView ∧
    mapGet (getAuthStatus 101 "p" demoStore).2.pendingAuth "p" = none ∧
    getAuthStatus 102 "p" (getAuthStatus 101 "p" demoStore).2 =
      (.notFoundView, (getAuthStatus 101 "p" demoStore).2) ∧
    getAuthStatus 50 "ghost" demoStore = (.notFoundView, demoStore) := by
  refine ⟨(getAuthStatus_cases 50 "v" demoStore).1 demoVerified rfl, ?_, ?_, ?_, ?_, ?_⟩
  · exact (getAuthStatus_cases 50 "p" demoStore).2.1 demoPending rfl rfl (by decide)
  · exact ((getAuthStatus_cases 101 "p" demoStore).2.2.1 demoPending rfl rfl (by decide)).1
  · exact ((getAuthStatus_cases 101 "p" demoStore).2.2.1 demoPending rfl rfl (by decide)).2.1
  · exact ((getAuthStatus_cases 101 "p" demoStore).2.2.1 demoPending rfl rfl (by decide)).2.2 102
  · exact (getAuthStatus_cases 50 "ghost" demoStore).2.2.2 rfl rfl

/-- C5: verify fails with the not-found error when the sessionId is not in
the pending partition, and with the expired error when it is pending but now
is past expiresAt; the expired path also deletes the entry from pending
(leaving the verified partition untouched). -/
theorem verifyAuthRequest_failure_modes (now : Nat) (sid sig : String)
    (vr : VerificationResult) (st : Store) :
    (mapGet st.pendingAuth sid = none →
      verifyAuthRequest now sid sig vr st = (.sessionNotFound, st)) ∧
    (∀ r, mapGet st.pendingAuth sid = some r → r.expiresAt < now →
      (verifyAuthRequest now sid sig vr st).1 = .sessionExpired ∧
      mapGet (verifyAuthRequest now sid sig vr st).2.pendingAuth sid = none ∧
      (verifyAuthRequest now sid sig vr st).2.sessions = st.sessions) := by
  refine ⟨fun h => ?_, fun r hp hlt => ?_⟩
  · simp [verifyAuthRequest, h]
  · refine ⟨?_, ?_, ?_⟩ <;> simp [verifyAuthRequest, hp, hlt, mapGet_mapDelete]

/-- Witness for C5: on a concrete store, verify on an id absent from pending
reports not found (also when the id is verified), and verify on an expired
pending id reports expired and deletes it. -/
theorem verifyAuthRequest_failure_modes_witness :
    verifyAuthRequest 50 "ghost" "s" { verified := true } demoStore =
      (.sessionNotFound, demoStore) ∧
    verifyAuthRequest 50 "v" "s" { verified := true } demoStore =
      (.sessionNotFound, demoStore) ∧
    (verifyAuthRequest 101 "p" "s" { verified := true } demoStore).1 = .sessionExpired ∧
    mapGet (verifyAuthRequest 101 "p" "s" { verified := true } demoStore).2.pendingAuth "p" = none := by
  refine ⟨(verifyAuthRequest_failure_modes 50 "ghost" "s" { verified := true } demoStore).1 rfl,
    (verifyAuthRequest_failure_modes 50 "v" "s" { verified := true } demoStore).1 rfl, ?_, ?_⟩
  · exact ((verifyAuthRequest_failure_modes 101 "p" "s" { verified := true } demoStore).2
      demoPending rfl (by decide)).1
  · exact ((verifyAuthRequest_failure_modes 101 "p" "s" { verified := true } demoStore).2
      demoPending rfl (by decide)).2.1

/-- C6: for a pending unexpired session, verify with an unverified
verification result returns a failure carrying the reason and leaves the
store unchanged, so a later getStatus (while still unexpired) returns the
pending view. -/
theorem verifyAuthRequest_unverified_keeps_pending (now : Nat) (sid sig : String)
    (vr : VerificationResult) (st : Store) (r : AuthRequest)
    (hp : mapGet st.pendingAuth sid = some r) (hle : now ≤ r.expiresAt)
    (hv : vr.verified = false) :
    verifyAuthRequest now sid sig vr st =
      (.failure (orDefault vr.error "Transaction verification failed"), st) ∧
    (∀ now2, mapGet st.sessions sid = none → now2 ≤ r.expiresAt →
      getAuthStatus now2 sid st =
        (.pendingView r.walletAddress r.expiresAt r.expectedAmount r.receiverAddress, st)) := by
  refine ⟨?_, fun now2 hs hle2 => ?_⟩
  · simp [verifyAuthRequest, hp, Nat.not_lt.mpr hle, hv]
  · simp [getAuthStatus, hs, hp, Nat.not_lt.mpr hle2]

/-- Witness for C6: on a concrete store, a failed verification leaves the
pending session in place and a later getStatus still returns its pending
view. -/
theorem verifyAuthRequest_unverified_keeps_pending_witness :
    verifyAuthRequest 50 "p" "s" { verified := false, error := some "no tx" } demoStore =
      (.failure "no tx", demoStore) ∧
    getAuthStatus 60 "p" demoStore =
      (.pendingView "W" 100 (10042 / 1000000000) "R", demoStore) := by
  refine ⟨(verifyAuthRequest_unverified_keeps_pending 50 "p" "s"
      { verified := false, error := some "no tx" } demoStore demoPending rfl (by decide) rfl).1,
    (verifyAuthRequest_unverified_keeps_pending 50 "p" "s"
      { verified := false, error := some "no tx" } demoStore demoPending rfl (by decide) rfl).2
      60 rfl (by decide)⟩

/-- C9: invalidate always succeeds, afterwards the sessionId is absent from
both partitions, and a second invalidate also succeeds and leaves the store
unchanged. -/
theorem invalidateSession_always_succeeds (sid : String) (st : Store) :
    (invalidateSession sid st).1.success = true ∧
    mapGet (invalidateSession sid st).2.sessions sid = none ∧
    mapGet (invalidateSession sid st).2.pendingAuth sid = none ∧
    (invalidateSession sid (invalidateSession sid st).2).1.success = true ∧
    (invalidateSession sid (invalidateSession sid st).2).2 = (invalidateSession sid st).2 := by
  refine ⟨rfl, ?_, ?_, rfl, ?_⟩
  · simp [invalidateSession, mapGet_mapDelete]
  · simp [invalidateSession, mapGet_mapDelete]
  · simp [invalidateSession, mapDelete_mapDelete]

/-- C10: a verified session never expires: getStatus returns its verified
view at every time, in particular past its expiresAt, and the store is
unchanged (the expiry timestamp is never consulted for verified sessions,
so the answer is the same at all times). -/
theorem verified_sessions_never_expire (sid : String) (st : Store) (r : AuthRequest)
    (h : mapGet st.sessions sid = some r) :
    ∀ now : Nat, getAuthStatus now sid st =
      (.verifiedView r.walletAddress r.signature r.verifiedAt, st) := by
  intro now
  simp [getAuthStatus, h]

/-- Witness for C10: on a concrete store, the verified session whose
expiresAt is 100 still reports verified at time 1000000. -/
theorem verified_sessions_never_expire_witness :
    demoVerified.expiresAt < 1000000 ∧
    getAuthStatus 1000000 "v" demoStore =
      (.verifiedView "V" (some "SIG") (some 50), demoStore) := by
  exact ⟨by decide, verified_sessions_never_expire "v" demoStore demoVerified rfl 1000000⟩

/-- C1: for an already-verified session, both verify paths are idempotent:
the POST verify route returns the already-verified response built from the
stored record (with or without a signature, whatever the ledger lookup would
say), the polling GET status route returns the verified view without calling
the matcher, and in both cases the store, hence verifiedAt, is unchanged. -/
theorem verify_idempotent_on_verified (now : Nat) (sid : String) (r : AuthRequest)
    (st : Store) (hne : sid ≠ "") (h : mapGet st.sessions sid = some r) :
    (∀ sig? fetch, postVerify now (some sid) sig? fetch st =
      (.alreadyVerified r.walletAddress r.signature r.verifiedAt, st)) ∧
    (∀ ledger, statusRoute now ledger sid st =
      (.view (.verifiedView r.walletAddress r.signature r.verifiedAt), st)) := by
  constructor
  · intro sig? fetch
    simp [postVerify, hne, getAuthStatus, h]
  · intro ledger
    simp [statusRoute, getAuthStatus, h]

/-- Witness for C1: on a concrete store whose session v is verified with
signature SIG at time 50, both routes return that existing view unchanged,
even when the ledger oracle would report fresh matches. -/
theorem verify_idempotent_on_verified_witness :
    postVerify 60 (some "v") (some "sig2") (.ok (some demoTxGood)) demoStore =
      (.alreadyVerified "V" (some "SIG") (some 50), demoStore) ∧
    statusRoute 60 (.ok [demoTxGood]) "v" demoStore =
      (.view (.verifiedView "V" (some "SIG") (some 50)), demoStore) := by
  exact ⟨(verify_idempotent_on_verified 60 "v" demoVerified demoStore (by decide) rfl).1
      (some "sig2") (.ok (some demoTxGood)),
    (verify_idempotent_on_verified 60 "v" demoVerified demoStore (by decide) rfl).2
      (.ok [demoTxGood])⟩

theorem disjoint_delete_pending (st : Store) (k : String)
    (h : PartitionsDisjoint st) :
    PartitionsDisjoint { st with pendingAuth := mapDelete st.pendingAuth k } := by
  intro s
  rw [mapGet_mapDelete]
  by_cases hsk : s = k
  · simp [hsk]
  · simpa [hsk] using h s

theorem disjoint_verify_step (now : Nat) (sid sig : String)
    (vr : VerificationResult) (st : Store) (h : PartitionsDisjoint st) :
    PartitionsDisjoint (verifyAuthRequest now sid sig vr st).2 := by
  unfold verifyAuthRequest
  cases hm : mapGet st.pendingAuth sid with
  | none => simpa using h
  | some r =>
    by_cases hlt : r.expiresAt < now
    · simpa [hlt] using disjoint_delete_pending st sid h
    · by_cases hv : vr.verified = false
      · simpa [hlt, hv] using h
      · rw [Bool.not_eq_false] at hv
        intro s
        simp only [if_neg hlt, hv, Bool.true_eq_false, if_false, mapGet_mapDelete,
          mapGet_mapSet]
        by_cases hsk : s = sid
        · simp [hsk]
        · simp only [if_neg hsk, if_neg (fun hh : sid = s => hsk hh.symm)]
          exact h s

theorem disjoint_getStatus_step (now : Nat) (sid : String) (st : Store)
    (h : PartitionsDisjoint st) :
    PartitionsDisjoint (getAuthStatus now sid st).2 := by
  unfold getAuthStatus
  cases hv : mapGet st.sessions sid with
  | some r => simpa using h
  | none =>
    cases hm : mapGet st.pendingAuth sid with
    | none => simpa using h
    | some r =>
      by_cases hlt : r.expiresAt < now
      · simpa [hlt] using disjoint_delete_pending st sid h
      · simpa [hlt] using h

theorem disjoint_invalidate_step (sid : String) (st : Store)
    (h : PartitionsDisjoint st) :
    PartitionsDisjoint (invalidateSession sid st).2 := by
  intro s
  simp only [invalidateSession, mapGet_mapDelete]
  by_cases hsk : s = sid
  · simp [hsk]
  · simpa [hsk] using h s

theorem disjoint_sweep_step (now : Nat) (st : Store)
    (h : PartitionsDisjoint st) :
    PartitionsDisjoint (cleanupExpiredSessions now st).2 := by
  intro s
  rcases h s with hp | hs
  · exact Or.inl (mapGet_filter_none _ _ _ hp)
  · exact Or.inr hs

/-- C3: in every store reachable by any sequence of create (with a fresh
uuid), verify, getStatus, invalidate and sweep operations, each sessionId is
in at most one of the pending and verified partitions. -/
theorem reachable_partitions_disjoint (st : Store) (h : Reachable st) :
    PartitionsDisjoint st := by
  induction h with
  | init => intro s; exact Or.inl rfl
  | create hr hfp hfs hok ih =>
    rename_i stp now sid w recv b exp resp stq
    simp only [createAuthRequest, Except.ok.injEq, Prod.mk.injEq] at hok
    obtain ⟨-, hst⟩ := hok
    subst hst
    intro s
    simp only [mapGet_mapSet]
    by_cases hsk : sid = s
    · subst hsk
      exact Or.inr hfs
    · simpa [hsk] using ih s
  | verify now sid sig vr hr ih => exact disjoint_verify_step now sid sig vr _ ih
  | getStatus now sid hr ih => exact disjoint_getStatus_step now sid _ ih
  | invalidate sid hr ih => exact disjoint_invalidate_step sid _ ih
  | sweep now hr ih => exact disjoint_sweep_step now _ ih

theorem round9_exact_nanos (k m : ℕ) :
    round9 ((k : ℚ) / 1000000000 + (m : ℚ) / 1000000000) =
      (k : ℚ) / 1000000000 + (m : ℚ) / 1000000000 := by
  have hsum : (k : ℚ) / 1000000000 + (m : ℚ) / 1000000000 =
      ((k + m : ℕ) : ℚ) / 1000000000 := by
    push_cast
    ring
  rw [hsum, round9, div_mul_cancel₀ _ (by norm_num : (1000000000 : ℚ) ≠ 0),
    round_natCast]
  rw [Int.cast_natCast]

/-- C2: create computes expectedAmount as the base amount plus the creation
millisecond modulo 1000 over ten to the ninth, rounded to 9 decimals (exact
whenever the base itself is a whole number of lamports); with base 0.00001
and millisecond residue 42 the amount is 0.000010042; and the amount is a
function of the base and the creation millisecond residue alone. -/
theorem createAuthRequest_expectedAmount (now : Nat) (sid w recv : String) (b : ℚ)
    (exp : Nat) (st : Store) (resp : CreateResp) (st' : Store)
    (h : createAuthRequest now sid w b (some recv) exp st = .ok (resp, st')) :
    resp.expectedAmount = round9 (b + ((now % 1000 : ℕ) : ℚ) / 1000000000) ∧
    (∀ k : ℕ, b = (k : ℚ) / 1000000000 →
      resp.expectedAmount = b + ((now % 1000 : ℕ) : ℚ) / 1000000000) ∧
    (b = 1 / 100000 → now % 1000 = 42 → resp.expectedAmount = 10042 / 1000000000) ∧
    (∀ now2 (sid2 w2 : String) (st2 : Store) (resp2 : CreateResp) (st2p : Store),
      createAuthRequest now2 sid2 w2 b (some recv) exp st2 = .ok (resp2, st2p) →
      now2 % 1000 = now % 1000 → resp2.expectedAmount = resp.expectedAmount) := by
  simp only [createAuthRequest, Except.ok.injEq, Prod.mk.injEq] at h
  obtain ⟨hresp, -⟩ := h
  have hamt : resp.expectedAmount = round9 (b + uniqueModifier now) := by
    rw [← hresp]
  refine ⟨by simpa [uniqueModifier] using hamt, fun k hb => ?_, fun hb hmod => ?_,
    fun now2 sid2 w2 st2 resp2 st2p h2 hmod2 => ?_⟩
  · rw [hamt, hb, uniqueModifier, round9_exact_nanos]
  · rw [hamt, hb, uniqueModifier, hmod]
    norm_num [round9, round_eq]
  · simp only [createAuthRequest, Except.ok.injEq, Prod.mk.injEq] at h2
    obtain ⟨hresp2, -⟩ := h2
    have hamt2 : resp2.expectedAmount = round9 (b + uniqueModifier now2) := by
      rw [← hresp2]
    rw [hamt, hamt2, uniqueModifier, uniqueModifier, hmod2]

/-- Witness for C2: the concrete create call at millisecond 7042 with base
0.00001 yields expected amount 0.000010042. -/
theorem createAuthRequest_expectedAmount_witness :
    createAuthRequest 7042 "s1" "W" (1 / 100000) (some "R") 1000 emptyStore =
      .ok (demoCreateResp, demoCreatedStore) ∧
    demoCreateResp.expectedAmount = 10042 / 1000000000 :=
  ⟨rfl, (createAuthRequest_expectedAmount 7042 "s1" "W" "R" (1 / 100000) 1000 emptyStore
      demoCreateResp demoCreatedStore rfl).2.2.1 rfl rfl⟩

/-- Witness for C3: the concrete store reached by one create call from the
empty store satisfies the disjointness invariant at the created id. -/
theorem reachable_partitions_disjoint_witness :
    mapGet demoCreatedStore.pendingAuth "s1" = none ∨
    mapGet demoCreatedStore.sessions "s1" = none :=
  reachable_partitions_disjoint demoCreatedStore
    (Reachable.create Reachable.init rfl rfl
      (rfl : createAuthRequest 7042 "s1" "W" (1 / 100000) (some "R") 1000 emptyStore =
        .ok (demoCreateResp, demoCreatedStore))) "s1"

theorem findSome?_none_of_all_none {α β : Type} (f : α → Option β) (l : List α)
    (h : ∀ x ∈ l, f x = none) : l.findSome? f = none := by
  induction l with
  | nil => rfl
  | cons a rest ih =>
    have ha := h a (List.mem_cons_self a rest)
    rw [List.findSome?_cons, ha]
    exact ih fun x hx => h x (List.mem_cons_of_mem a hx)

/-- C7 counterexample: the claim says both matcher entry points accept a
transaction exactly when the receiver delta is strictly within tolerance,
but verifyTransaction accepts at a delta differing from the expected amount
by exactly its tolerance 0.0001: for the boundary transaction it reports
verified although the difference is not strictly below the tolerance. -/
theorem matcher_strict_tolerance_counterexample :
    demoTxBoundary.err = false ∧
    demoTxBoundary.accountKeys.findIdx? (fun k => k == "R") = some 1 ∧
    (verifyTransaction (.ok (some demoTxBoundary)) "sigBoundary" "W" "R"
      (10000 / 1000000000)).verified = true ∧
    ¬ (|balanceDelta demoTxBoundary 1 - 10000 / 1000000000| < verifyTolerance) := by
  refine ⟨rfl, by decide, ?_, ?_⟩
  · norm_num [verifyTransaction, demoTxBoundary, balanceDelta, verifyTolerance,
      lamportsPerSol, List.getD, abs_le,
      show List.findIdx? (fun k => k == "R") ["W", "R"] = some 1 from by decide,
      show List.findIdx? (fun k => k == "W") ["W", "R"] = some 0 from by decide]
  · norm_num [balanceDelta, demoTxBoundary, verifyTolerance, lamportsPerSol,
      List.getD, abs_of_nonneg]

/-- C7 (amended): a transaction passing the skip guards is accepted by
findMatch exactly when the receiver delta is strictly within the tight
tolerance 0.000001, and by verifySignature exactly when it is non-strictly
within the strictly wider tolerance 0.0001; against expected amount
0.000010042 a delta of 0.000010042 is accepted by findMatch and a delta of
0.0000200 is rejected. -/
theorem matcher_tolerances :
    (∀ (sender recv : String) (amt : ℚ) (tx : LedgerTx) (ri : Nat),
      tx.err = false → tx.accountKeys.headD "" = sender →
      tx.accountKeys.findIdx? (fun k => k == recv) = some ri →
      ((checkTx sender recv amt tx).isSome = true ↔
        |balanceDelta tx ri - amt| < findMatchTolerance)) ∧
    (∀ (sig fromA toA : String) (amt : ℚ) (tx : LedgerTx) (fi ti : Nat),
      tx.err = false →
      tx.accountKeys.findIdx? (fun k => k == fromA) = some fi →
      tx.accountKeys.findIdx? (fun k => k == toA) = some ti →
      ((verifyTransaction (.ok (some tx)) sig fromA toA amt).verified = true ↔
        |balanceDelta tx ti - amt| ≤ verifyTolerance)) ∧
    findMatchTolerance < verifyTolerance ∧
    checkForIncomingTransaction (.ok [demoTxGood]) "W" "R" (10042 / 1000000000) =
      .found { signature := "sigGood", receivedAmount := 10042 / 1000000000,
               blockTime := 1700000000, slot := 42 } ∧
    checkForIncomingTransaction (.ok [demoTxBad]) "W" "R" (10042 / 1000000000) =
      .notFound none := by
  refine ⟨?_, ?_, by norm_num [findMatchTolerance, verifyTolerance], ?_, ?_⟩
  · intro sender recv amt tx ri herr hsender hri
    simp only [List.headD_eq_head?_getD] at hsender
    by_cases hcond : |balanceDelta tx ri - amt| < findMatchTolerance <;>
      simp [checkTx, herr, hsender, hri, hcond]
  · intro sig fromA toA amt tx fi ti herr hfi hti
    by_cases hcond : |balanceDelta tx ti - amt| ≤ verifyTolerance <;>
      simp [verifyTransaction, herr, hfi, hti, hcond]
  · norm_num [checkForIncomingTransaction, checkTx, demoTxGood, balanceDelta,
      findMatchTolerance, lamportsPerSol, List.findSome?, List.getD, abs_lt,
      show List.findIdx? (fun k => k == "R") ["W", "R"] = some 1 from by decide,
      show ("W" : String) ≠ "R" from by decide]
  · norm_num [checkForIncomingTransaction, checkTx, demoTxBad, balanceDelta,
      findMatchTolerance, lamportsPerSol, List.findSome?, List.getD, abs_lt,
      show List.findIdx? (fun k => k == "R") ["W", "R"] = some 1 from by decide,
      show ("W" : String) ≠ "R" from by decide]

/-- Witness for the amended C7: the guard hypotheses hold for the concrete
transactions, the zero-difference delta is accepted by the scan step and the
boundary delta is accepted by verifyTransaction. -/
theorem matcher_tolerances_witness :
    (checkTx "W" "R" (10042 / 1000000000) demoTxGood).isSome = true ∧
    (verifyTransaction (.ok (some demoTxBoundary)) "sigBoundary" "W" "R"
      (10000 / 1000000000)).verified = true := by
  constructor
  · exact (matcher_tolerances.1 "W" "R" (10042 / 1000000000) demoTxGood 1 rfl rfl
      (by decide)).mpr
      (by norm_num [balanceDelta, demoTxGood, findMatchTolerance, lamportsPerSol,
        List.getD, abs_lt])
  · exact (matcher_tolerances.2.1 "sigBoundary" "W" "R" (10000 / 1000000000)
      demoTxBoundary 0 1 rfl (by decide) (by decide)).mpr
      (by norm_num [balanceDelta, demoTxBoundary, verifyTolerance, lamportsPerSol,
        List.getD, abs_le])

/-- C8: the matcher returns found:false (not an exception) when no scanned
transaction matches, turns an I/O failure into found:false carrying the
message, and the polling status route treats any not-found matcher result,
I/O failure included, as no match this round: it returns the pending view
and the session stays pending in an unchanged store. -/
theorem matcher_no_match_never_fatal :
    (∀ (msg sender recv : String) (amt : ℚ),
      checkForIncomingTransaction (.error msg) sender recv amt =
        .notFound (some msg)) ∧
    (∀ (txs : List LedgerTx) (sender recv : String) (amt : ℚ),
      (∀ tx ∈ txs, checkTx sender recv amt tx = none) →
      checkForIncomingTransaction (.ok txs) sender recv amt = .notFound none) ∧
    (∀ (now : Nat) (ledger : Except String (List LedgerTx)) (sid : String)
        (st : Store) (r : AuthRequest) (e : Option String),
      mapGet st.sessions sid = none → mapGet st.pendingAuth sid = some r →
      now ≤ r.expiresAt →
      checkForIncomingTransaction ledger r.walletAddress r.receiverAddress
        r.expectedAmount = .notFound e →
      statusRoute now ledger sid st =
        (.view (.pendingView r.walletAddress r.expiresAt r.expectedAmount
          r.receiverAddress), st)) := by
  refine ⟨fun msg sender recv amt => rfl, fun txs sender recv amt h => ?_,
    fun now ledger sid st r e hs hp hle hcm => ?_⟩
  · simp [checkForIncomingTransaction, findSome?_none_of_all_none _ txs h]
  · simp [statusRoute, getAuthStatus, hs, hp, Nat.not_lt.mpr hle, hcm]

/-- Witness for C8: with the ledger unreachable, the matcher reports
found:false with the error message, and the status poll for the concrete
pending session still returns its pending view with the store unchanged. -/
theorem matcher_no_match_never_fatal_witness :
    checkForIncomingTransaction (.error "ledger unreachable") "W" "R"
      (10042 / 1000000000) = .notFound (some "ledger unreachable") ∧
    statusRoute 50 (.error "ledger unreachable") "p" demoStore =
      (.view (.pendingView "W" 100 (10042 / 1000000000) "R"), demoStore) :=
  ⟨matcher_no_match_never_fatal.1 "ledger unreachable" "W" "R" (10042 / 1000000000),
    matcher_no_match_never_fatal.2.2 50 (.error "ledger unreachable") "p" demoStore
      demoPending (some "ledger unreachable") rfl rfl (by decide) rfl⟩

end SignLess
